import Mathlib

/-!
Verification development for the Crackers Shop API backend
(`src/main.py`, `src/schemas.py`).

The HTTP service exposes CRUD-style endpoints over two Mongo-style
document collections (`crackerproduct` and `order`).  We embed the
data model, the pydantic validation layer, the serialization helper
and the route handlers as executable Lean definitions, and prove the
behavioural properties of the specification against them.

The document-store adapter (`database.py`: `create_document`,
`get_documents`, and the `db` handle) is not part of the given
sources; those operations are modelled from the specification's
adapter contract (§4.1) and marked `Modelled from the spec:` in
their doc comments.
-/

namespace CrackersShop

/-- A BSON-like value stored in a document field.  Object ids carry
their Nat key (`vOid k`); its external string form is the 24-digit
hex rendering produced by `oidString`. -/
inductive Value where
  | vNull
  | vBool (b : Bool)
  | vNum (q : Rat)
  | vStr (s : String)
  | vOid (k : Nat)
  | vArr (elems : List Value)
  | vDoc (fields : List (String × Value))
deriving Repr

mutual

/-- Structural equality test on values (BSON equality; on the scalar
values this system stores it is exact, case-sensitive comparison). -/
def Value.beq : Value → Value → Bool
  | .vNull, .vNull => true
  | .vBool a, .vBool b => a == b
  | .vNum a, .vNum b => a == b
  | .vStr a, .vStr b => a == b
  | .vOid a, .vOid b => a == b
  | .vArr a, .vArr b => Value.beqList a b
  | .vDoc a, .vDoc b => Value.beqFields a b
  | _, _ => false

def Value.beqList : List Value → List Value → Bool
  | [], [] => true
  | a :: as, b :: bs => Value.beq a b && Value.beqList as bs
  | _, _ => false

def Value.beqFields : List (String × Value) → List (String × Value) → Bool
  | [], [] => true
  | (k1, v1) :: as, (k2, v2) :: bs =>
      k1 == k2 && Value.beq v1 v2 && Value.beqFields as bs
  | _, _ => false

end

/-- A document: an ordered association list of fields, as a Python
dict / BSON document (keys unique in every document this system
builds). -/
abbrev Doc := List (String × Value)

/-- Python `d.get(key)`: first binding of `key`, if any. -/
def getField (d : Doc) (key : String) : Option Value :=
  match d with
  | [] => none
  | (k, v) :: rest => if k = key then some v else getField rest key

/-- Python `d.pop(key)` (drop the binding of `key`, keep the rest in order). -/
def eraseField (d : Doc) (key : String) : Doc :=
  match d with
  | [] => []
  | (k, v) :: rest => if k = key then eraseField rest key
                      else (k, v) :: eraseField rest key

/-- Python `d[key] = value`: overwrite in place when present, else append
at the end (Python dict assignment order semantics). -/
def setField (d : Doc) (key : String) (v : Value) : Doc :=
  match d with
  | [] => [(key, v)]
  | (k, w) :: rest => if k = key then (k, v) :: rest
                      else (k, w) :: setField rest key v

/-! ## ObjectId string codec

`bson.ObjectId` keys: a native key is modelled as a `Nat`; its
external string rendering is a 24-digit lowercase hex string, and
`ObjectId(s)` accepts exactly strings of 24 hexadecimal digits. -/

/-- Hex digit character for `d < 16` (lowercase, as `str(ObjectId)`). -/
def hexChar (d : Nat) : Char :=
  if d < 10 then Char.ofNat (48 + d) else Char.ofNat (87 + d)

/-- Big-endian hex rendering of `n`, exactly `k` digits (low `k`
digits of `n`, i.e. `n % 16^k`). -/
def toHexAux : Nat → Nat → List Char
  | 0, _ => []
  | k + 1, n => toHexAux k (n / 16) ++ [hexChar (n % 16)]

/-- Rendering `str(oid)`: 24-digit lowercase hex rendering of a native key. -/
def oidString (n : Nat) : String := ⟨toHexAux 24 n⟩

/-- Numeric value of a hex digit character, `none` on a non-hex char. -/
def hexVal (c : Char) : Option Nat :=
  if '0' ≤ c ∧ c ≤ '9' then some (c.toNat - 48)
  else if 'a' ≤ c ∧ c ≤ 'f' then some (c.toNat - 87)
  else if 'A' ≤ c ∧ c ≤ 'F' then some (c.toNat - 55)
  else none

/-- Big-endian hex parse with accumulator. -/
def parseHexList (cs : List Char) (acc : Nat) : Option Nat :=
  match cs with
  | [] => some acc
  | c :: rest =>
    match hexVal c with
    | none => none
    | some v => parseHexList rest (acc * 16 + v)

/-- Parsing `ObjectId(s)`: succeeds exactly on 24-hex-digit strings, yielding
the native key; any other string raises (modelled as `none`). -/
def oidParse (s : String) : Option Nat :=
  if s.length = 24 then parseHexList s.data 0 else none

/-! ## Document store (`database.py`, not among the given sources) -/

/-- Modelled from the spec: the document store state behind the `db`
handle of `database.py`.  Collections hold documents in insertion
order; `counter` generates fresh native keys; `exn` is a pending
store-level failure (§4.1 degraded mode: operations "fail gracefully
(report unavailability)" by raising, which callers may catch). -/
structure State where
  counter : Nat
  collections : List (String × List Doc)
  exn : Option String

/-- Documents of a named collection in a collection table (empty
when the collection is absent). -/
def collFind : List (String × List Doc) → String → List Doc
  | [], _ => []
  | (c, ds) :: rest, coll => if c = coll then ds else collFind rest coll

/-- Documents of a named collection (empty when absent). -/
def getColl (st : State) (coll : String) : List Doc :=
  collFind st.collections coll

/-- Replace (or create) a named collection's document list. -/
def putColl (cols : List (String × List Doc)) (coll : String)
    (docs : List Doc) : List (String × List Doc) :=
  match cols with
  | [] => [(coll, docs)]
  | (c, ds) :: rest =>
    if c = coll then (c, docs) :: rest else (c, ds) :: putColl rest coll docs

/-- A document matches a Mongo equality filter when every filter
binding equals the document's field value. -/
def matchesFilter (flt : List (String × Value)) (d : Doc) : Bool :=
  flt.all fun p =>
    match getField d p.1 with
    | some w => Value.beq w p.2
    | none => false

/-- Modelled from the spec: `create_document(collection_name, doc)`
of `database.py` — §4.1 `create(collection_name, document) ->
identifier`.  Inserts the document with a fresh store-native `_id`
key and returns the identifier as an opaque string. -/
def create_document (st : State) (coll : String) (d : Doc) :
    Except String (String × State) :=
  match st.exn with
  | some e => .error e
  | none =>
    let key := st.counter
    let doc : Doc := ("_id", Value.vOid key) :: d
    .ok (oidString key,
      { counter := st.counter + 1
        collections := putColl st.collections coll (getColl st coll ++ [doc])
        exn := none })

/-- Modelled from the spec: `get_documents(collection_name, filter,
limit)` of `database.py` — §4.1 `find_many(collection_name, filter,
limit) -> sequence of documents`, matching documents in insertion
order, truncated to `limit` when given. -/
def get_documents (st : State) (coll : String)
    (flt : List (String × Value)) (limit : Option Nat) :
    Except String (List Doc) :=
  match st.exn with
  | some e => .error e
  | none =>
    let docs := (getColl st coll).filter (matchesFilter flt)
    .ok (match limit with
         | some l => docs.take l
         | none => docs)

/-- Modelled from the spec: `count_documents({})` on a collection —
§4.1 `count(collection_name) -> integer`. -/
def count_documents (st : State) (coll : String) : Except String Nat :=
  match st.exn with
  | some e => .error e
  | none => .ok (getColl st coll).length

/-- Modelled from the spec: `find_one(collection, {"_id": oid})` —
§4.1 `find_one(collection_name, identifier) -> document or
not-found`, first document whose `_id` equals the key. -/
def find_one (st : State) (coll : String) (key : Nat) :
    Except String (Option Doc) :=
  match st.exn with
  | some e => .error e
  | none =>
    .ok ((getColl st coll).find? fun d =>
      match getField d "_id" with
      | some (.vOid k) => k = key
      | _ => false)

/-! ## Schema layer (`src/schemas.py`) -/

/-- Schema `CrackerProduct` (schemas.py): a validated catalog product. -/
structure CrackerProduct where
  name : String
  description : Option String
  price : Rat
  category : String
  image : Option String
  in_stock : Bool
  rating : Option Rat
deriving Repr, DecidableEq

/-- Schema `OrderItem` (schemas.py): a validated order line. -/
structure OrderItem where
  product_id : String
  name : String
  price : Rat
  quantity : Int
deriving Repr, DecidableEq

/-- Schema `CustomerInfo` (schemas.py): a validated embedded customer. -/
structure CustomerInfo where
  name : String
  email : String
  phone : Option String
  address : String
  city : String
  pincode : String
deriving Repr, DecidableEq

/-- Schema `Order` (schemas.py): a validated order. -/
structure Order where
  items : List OrderItem
  customer : CustomerInfo
  total_amount : Rat
  status : String
  notes : Option String
deriving Repr, DecidableEq

/-! ### Inbound JSON payloads

A payload field is `none` when the key is absent from the request
body.  Fields whose schema type is `Optional[...]` use a second
`Option` layer for an explicit JSON `null`.  (Bodies with
wrongly-typed fields are also rejected by pydantic; they are outside
the properties below, so payloads carry typed fields.) -/

instance {α β : Type} [DecidableEq α] [DecidableEq β] :
    DecidableEq (Except α β)
  | .ok x, .ok y =>
    if h : x = y then isTrue (by rw [h]) else isFalse (by simp [h])
  | .error x, .error y =>
    if h : x = y then isTrue (by rw [h]) else isFalse (by simp [h])
  | .ok _, .error _ => isFalse (by simp)
  | .error _, .ok _ => isFalse (by simp)

/-- Request body for `CrackerProduct`. -/
structure CrackerPayload where
  name : Option String
  description : Option (Option String)
  price : Option Rat
  category : Option String
  image : Option (Option String)
  in_stock : Option Bool
  rating : Option (Option Rat)
deriving Repr

/-- Request body for `OrderItem`. -/
structure OrderItemPayload where
  product_id : Option String
  name : Option String
  price : Option Rat
  quantity : Option Int
deriving Repr

/-- Request body for `CustomerInfo`. -/
structure CustomerPayload where
  name : Option String
  email : Option String
  phone : Option (Option String)
  address : Option String
  city : Option String
  pincode : Option String
deriving Repr

/-- Request body for `Order`. -/
structure OrderPayload where
  items : Option (List OrderItemPayload)
  customer : Option CustomerPayload
  total_amount : Option Rat
  status : Option String
  notes : Option (Option String)
deriving Repr

/-- Modelled from the external `email-validator` library used by
pydantic's `EmailStr`: exactly one `@`, non-empty local part,
non-empty domain containing a dot not at either end. -/
def isValidEmail (s : String) : Bool :=
  match s.data.span (fun c => c ≠ '@') with
  | (_, []) => false
  | (loc, _ :: domain) =>
    !loc.isEmpty && !domain.isEmpty && !domain.contains '@' &&
      domain.contains '.' && domain.head? ≠ some '.' &&
      domain.getLast? ≠ some '.' 

/-- Pydantic validation of a `CrackerProduct` body (schemas.py):
`name`/`price`/`category` required, `price ≥ 0`, `in_stock` defaults
to `True`, `rating` defaults to `4.5` and must lie in `[0, 5]` when
given as a number. -/
def validateCrackerProduct (p : CrackerPayload) :
    Except String CrackerProduct :=
  match p.name with
  | none => .error "name: Field required"
  | some name =>
  match p.price with
  | none => .error "price: Field required"
  | some price =>
  if price < 0 then
    .error "price: Input should be greater than or equal to 0"
  else
  match p.category with
  | none => .error "category: Field required"
  | some category =>
  match p.rating with
  | none =>
    .ok { name, description := p.description.getD none, price, category,
          image := p.image.getD none, in_stock := p.in_stock.getD true,
          rating := some ((9 : Rat) / 2) }
  | some none =>
    .ok { name, description := p.description.getD none, price, category,
          image := p.image.getD none, in_stock := p.in_stock.getD true,
          rating := none }
  | some (some r) =>
    if r < 0 ∨ 5 < r then
      .error "rating: Input should be within the range 0 to 5"
    else
      .ok { name, description := p.description.getD none, price, category,
            image := p.image.getD none, in_stock := p.in_stock.getD true,
            rating := some r }

/-- Pydantic validation of an `OrderItem` body (schemas.py): all four
fields required, `price ≥ 0`, `quantity ≥ 1`. -/
def validateOrderItem (p : OrderItemPayload) : Except String OrderItem :=
  match p.product_id with
  | none => .error "product_id: Field required"
  | some product_id =>
  match p.name with
  | none => .error "name: Field required"
  | some name =>
  match p.price with
  | none => .error "price: Field required"
  | some price =>
  if price < 0 then
    .error "price: Input should be greater than or equal to 0"
  else
  match p.quantity with
  | none => .error "quantity: Field required"
  | some quantity =>
  if quantity < 1 then
    .error "quantity: Input should be greater than or equal to 1"
  else
    .ok { product_id, name, price, quantity }

/-- Pydantic validation of a `CustomerInfo` body (schemas.py):
`name`, `email`, `address`, `city`, `pincode` required, `email` a
valid email, `phone` optional defaulting to `None`. -/
def validateCustomerInfo (p : CustomerPayload) :
    Except String CustomerInfo :=
  match p.name with
  | none => .error "name: Field required"
  | some name =>
  match p.email with
  | none => .error "email: Field required"
  | some email =>
  if !isValidEmail email then
    .error "email: value is not a valid email address"
  else
  match p.address with
  | none => .error "address: Field required"
  | some address =>
  match p.city with
  | none => .error "city: Field required"
  | some city =>
  match p.pincode with
  | none => .error "pincode: Field required"
  | some pincode =>
    .ok { name, email, phone := p.phone.getD none, address, city, pincode }

/-- Pydantic validation of an `Order` body (schemas.py): `items`,
`customer`, `total_amount` required, items and customer validated
recursively, `total_amount ≥ 0`, `status` defaults to `"pending"`,
`notes` optional defaulting to `None`. -/
def validateOrder (p : OrderPayload) : Except String Order :=
  match p.items with
  | none => .error "items: Field required"
  | some rawItems =>
  match rawItems.mapM validateOrderItem with
  | .error e => .error e
  | .ok items =>
  match p.customer with
  | none => .error "customer: Field required"
  | some rawCustomer =>
  match validateCustomerInfo rawCustomer with
  | .error e => .error e
  | .ok customer =>
  match p.total_amount with
  | none => .error "total_amount: Field required"
  | some total_amount =>
  if total_amount < 0 then
    .error "total_amount: Input should be greater than or equal to 0"
  else
    .ok { items, customer, total_amount,
          status := p.status.getD "pending", notes := p.notes.getD none }

/-! ### Model dumps (the dicts handed to the store on insert) -/

/-- An `Optional[str]` field value as stored. -/
def optStr : Option String → Value
  | some s => .vStr s
  | none => .vNull

/-- An `Optional[float]` field value as stored. -/
def optNum : Option Rat → Value
  | some q => .vNum q
  | none => .vNull

/-- The `model_dump` of a `CrackerProduct`. -/
def CrackerProduct.dump (p : CrackerProduct) : Doc :=
  [("name", .vStr p.name), ("description", optStr p.description),
   ("price", .vNum p.price), ("category", .vStr p.category),
   ("image", optStr p.image), ("in_stock", .vBool p.in_stock),
   ("rating", optNum p.rating)]

/-- The `model_dump` of an `OrderItem`. -/
def OrderItem.dump (it : OrderItem) : Doc :=
  [("product_id", .vStr it.product_id), ("name", .vStr it.name),
   ("price", .vNum it.price), ("quantity", .vNum (it.quantity : Rat))]

/-- The `model_dump` of a `CustomerInfo`. -/
def CustomerInfo.dump (c : CustomerInfo) : Doc :=
  [("name", .vStr c.name), ("email", .vStr c.email),
   ("phone", optStr c.phone), ("address", .vStr c.address),
   ("city", .vStr c.city), ("pincode", .vStr c.pincode)]

/-- The `model_dump` of an `Order`. -/
def Order.dump (o : Order) : Doc :=
  [("items", .vArr (o.items.map fun it => .vDoc it.dump)),
   ("customer", .vDoc o.customer.dump),
   ("total_amount", .vNum o.total_amount),
   ("status", .vStr o.status), ("notes", optStr o.notes)]

/-! ## HTTP layer (`src/main.py`) -/

/-- An HTTP response: a JSON body, or an `HTTPException`-style error
with status code and detail (422 is FastAPI's request-validation
rejection, raised before the handler runs). -/
inductive HttpResponse where
  | ok (body : Value)
  | error (status : Nat) (detail : String)
deriving Repr

/-- Python `str()` of a stored value.  In this system the only value
ever passed (the popped `_id`) is an object id, rendered as its
24-digit hex string; the other branches are total stand-ins. -/
def valueToString : Value → String
  | .vNull => "None"
  | .vBool b => if b then "True" else "False"
  | .vNum q => toString q
  | .vStr s => s
  | .vOid k => oidString k
  | .vArr _ => "<list>"
  | .vDoc _ => "<dict>"

/-- Helper `serialize_doc` (main.py:24): if the document has a non-`None`
`_id`, pop it and assign `d["id"] = str(_id)`; otherwise return the
document unchanged. -/
def serialize_doc (d : Doc) : Doc :=
  match getField d "_id" with
  | none => d
  | some .vNull => d
  | some v => setField (eraseField d "_id") "id" (.vStr (valueToString v))

/-- First sample product (main.py:37-45). -/
def sample1 : Doc :=
  [("name", .vStr "Sparklers Pack (10)"),
    ("description", .vStr "Bright, long-lasting sparklers perfect for celebrations."),
    ("price", .vNum ((299 : Rat) / 100)),
    ("category", .vStr "Sparklers"),
    ("image", .vStr "https://images.unsplash.com/photo-1519681393784-d120267933ba?q=80&w=800&auto=format&fit=crop"),
    ("in_stock", .vBool true),
    ("rating", .vNum ((24 : Rat) / 5))]

/-- Second sample product (main.py:46-54). -/
def sample2 : Doc :=
  [("name", .vStr "Flower Pots (Medium)"),
    ("description", .vStr "Colorful fountain with safe height and vibrant effects."),
    ("price", .vNum ((9 : Rat) / 2)),
    ("category", .vStr "Flower Pots"),
    ("image", .vStr "https://images.unsplash.com/photo-1508057198894-247b23fe5ade?q=80&w=800&auto=format&fit=crop"),
    ("in_stock", .vBool true),
    ("rating", .vNum ((23 : Rat) / 5))]

/-- Third sample product (main.py:55-63). -/
def sample3 : Doc :=
  [("name", .vStr "Ground Spinners (5)"),
    ("description", .vStr "Fun spinning wheels with multi-color trails."),
    ("price", .vNum ((13 : Rat) / 4)),
    ("category", .vStr "Ground Spinners"),
    ("image", .vStr "https://images.unsplash.com/photo-1492684223066-81342ee5ff30?q=80&w=800&auto=format&fit=crop"),
    ("in_stock", .vBool true),
    ("rating", .vNum ((22 : Rat) / 5))]

/-- Fourth sample product (main.py:64-72). -/
def sample4 : Doc :=
  [("name", .vStr "Sky Rockets (3)"),
    ("description", .vStr "High-flying rockets with beautiful bursts."),
    ("price", .vNum ((799 : Rat) / 100)),
    ("category", .vStr "Rockets"),
    ("image", .vStr "https://images.unsplash.com/photo-1504384308090-c894fdcc538d?q=80&w=800&auto=format&fit=crop"),
    ("in_stock", .vBool true),
    ("rating", .vNum ((47 : Rat) / 10))]

/-- The fixed sample catalog inserted by seeding (main.py:36-73). -/
def samples : List Doc := [sample1, sample2, sample3, sample4]

/-- Loop `for s in samples: create_document("crackerproduct", s)`: insert
documents in order, propagating a store exception. -/
def insertAll (st : State) : List Doc → Except String State
  | [] => .ok st
  | d :: rest =>
    match create_document st "crackerproduct" d with
    | .error e => .error e
    | .ok r => insertAll r.2 rest

/-- Routine `seed_crackers_if_empty` (main.py:31): no-op when `db` is `None`;
otherwise count the `crackerproduct` collection and, exactly when the
count is 0, insert the four sample products.  A store exception
propagates (`Except.error`). -/
def seed_crackers_if_empty (db : Option State) :
    Except String (Option State) :=
  match db with
  | none => .ok none
  | some st =>
    match count_documents st "crackerproduct" with
    | .error e => .error e
    | .ok count =>
      if count = 0 then
        match insertAll st samples with
        | .error e => .error e
        | .ok st' => .ok (some st')
      else .ok (some st)

/-- Endpoint `GET /api/crackers` (main.py:155): seed if empty, then list the
`crackerproduct` documents matching the optional `category` filter
(Python truthiness: an empty-string category means no filter),
serialized.  Returns the response body together with the store
handle after the request. -/
def list_crackers (db : Option State) (category : Option String) :
    Except String (List Doc × Option State) :=
  match seed_crackers_if_empty db with
  | .error e => .error e
  | .ok db' =>
    let flt : List (String × Value) :=
      match category with
      | some c => if c = "" then [] else [("category", Value.vStr c)]
      | none => []
    match db' with
    | none => .error "database not available"
    | some st =>
      match get_documents st "crackerproduct" flt none with
      | .error e => .error e
      | .ok items => .ok (items.map serialize_doc, db')

/-- Endpoint `POST /api/crackers` (main.py:163): FastAPI validates the body as
a `CrackerProduct` (422 on failure, handler never runs), then the
handler inserts it and returns `{"id": pid}`. -/
def create_cracker (db : Option State) (p : CrackerPayload) :
    Except String (HttpResponse × Option State) :=
  match validateCrackerProduct p with
  | .error e => .ok (.error 422 e, db)
  | .ok prod =>
    match db with
    | none => .error "database not available"
    | some st =>
      (create_document st "crackerproduct" prod.dump).map
        fun r => (.ok (.vDoc [("id", .vStr r.1)]), some r.2)

/-- Endpoint `GET /api/crackers/{product_id}` (main.py:169): inside one `try`,
subscript `db` (raises when `None`), parse the id with `ObjectId`
(raises on malformed strings) and run `find_one`; any exception is
caught and mapped to 400 "Invalid product id".  A parse-able id with
no matching document yields 404 "Product not found"; otherwise the
serialized document. -/
def get_cracker (db : Option State) (product_id : String) : HttpResponse :=
  match db with
  | none => .error 400 "Invalid product id"
  | some st =>
    match oidParse product_id with
    | none => .error 400 "Invalid product id"
    | some key =>
      match find_one st "crackerproduct" key with
      | .error _ => .error 400 "Invalid product id"
      | .ok none => .error 404 "Product not found"
      | .ok (some doc) => .ok (.vDoc (serialize_doc doc))

/-- Endpoint `POST /api/orders` (main.py:187): FastAPI validates the body as
an `Order` (422 on failure), then the handler inserts it and returns
`{"order_id": oid, "status": "received"}`. -/
def create_order (db : Option State) (p : OrderPayload) :
    Except String (HttpResponse × Option State) :=
  match validateOrder p with
  | .error e => .ok (.error 422 e, db)
  | .ok o =>
    match db with
    | none => .error "database not available"
    | some st =>
      (create_document st "order" o.dump).map
        fun r =>
          (.ok (.vDoc [("order_id", .vStr r.1), ("status", .vStr "received")]),
           some r.2)

/-- Endpoint `GET /api/orders` (main.py:193): list the `order` collection with
no filter and the `limit` query parameter (default 50), serialized. -/
def list_orders (db : Option State) (limit : Nat := 50) :
    Except String (List Doc) :=
  match db with
  | none => .error "database not available"
  | some st =>
    (get_documents st "order" [] (some limit)).map (·.map serialize_doc)

/-! ## `GET /test` diagnostic (main.py:92) -/

/-- Modelled from the spec: the raw `db` handle as seen by the
diagnostic endpoint — it may expose a `name` attribute and its
`list_collection_names()` call either returns names or raises. -/
structure DBHandle where
  nameAttr : Option String
  listCollectionNames : Except String (List String)

/-- The JSON body of `GET /test`. -/
structure TestResponse where
  backend : String
  database : String
  database_url : String
  database_name : String
  connection_status : String
  collections : List String
deriving Repr, DecidableEq

/-- Endpoint `test_database` (main.py:92): always returns a response.  With a
handle present, `list_collection_names()` is tried: on success the
status is "Connected & Working" and at most 10 collection names are
reported; on exception the status embeds `str(e)[:50]`.  The
`database_url`/`database_name` fields are finally overwritten from
the environment flags. -/
def test_database (db : Option DBHandle) (urlSet nameSet : Bool) :
    TestResponse :=
  let statusColls : String × List String :=
    match db with
    | none => ("⚠️  Available but not initialized", [])
    | some h =>
      match h.listCollectionNames with
      | .ok cols => ("✅ Connected & Working", cols.take 10)
      | .error e => ("⚠️  Connected but Error: " ++ e.take 50, [])
  { backend := "✅ Running"
    database := statusColls.1
    database_url := if urlSet then "✅ Set" else "❌ Not Set"
    database_name := if nameSet then "✅ Set" else "❌ Not Set"
    connection_status :=
      match db with
      | some _ => "Connected"
      | none => "Not Connected"
    collections := statusColls.2 }

/-! ## Basic lemmas: hex codec -/

theorem toHexAux_length (k : Nat) : ∀ n, (toHexAux k n).length = k := by
  induction k with
  | zero => intro n; rfl
  | succ k ih => intro n; simp [toHexAux, ih]

theorem hexVal_hexChar_fin : ∀ d : Fin 16, hexVal (hexChar d.val) = some d.val := by
  decide

theorem hexVal_hexChar {d : Nat} (h : d < 16) : hexVal (hexChar d) = some d :=
  hexVal_hexChar_fin ⟨d, h⟩

theorem parseHexList_append (l1 l2 : List Char) (acc : Nat) :
    parseHexList (l1 ++ l2) acc =
      match parseHexList l1 acc with
      | some a => parseHexList l2 a
      | none => none := by
  induction l1 generalizing acc with
  | nil => rfl
  | cons c rest ih =>
    cases h : hexVal c with
    | none => simp [parseHexList, h]
    | some v => simp [parseHexList, h, ih]

theorem parseHexList_toHexAux (k : Nat) : ∀ n acc,
    parseHexList (toHexAux k n) acc = some (acc * 16 ^ k + n % 16 ^ k) := by
  induction k with
  | zero => intro n acc; simp [toHexAux, parseHexList, Nat.mod_one]
  | succ k ih =>
    intro n acc
    rw [toHexAux, parseHexList_append, ih]
    have h16 : n % 16 < 16 := Nat.mod_lt _ (by norm_num)
    simp only [parseHexList, hexVal_hexChar h16]
    congr 1
    rw [pow_succ 16 k, Nat.mul_comm (16 ^ k) 16, Nat.mod_mul]
    ring

theorem oidString_length (n : Nat) : (oidString n).length = 24 :=
  toHexAux_length 24 n

theorem oidParse_oidString {n : Nat} (h : n < 16 ^ 24) :
    oidParse (oidString n) = some n := by
  rw [oidParse, if_pos (oidString_length n)]
  show parseHexList (toHexAux 24 n) 0 = some n
  rw [parseHexList_toHexAux, Nat.zero_mul, Nat.zero_add, Nat.mod_eq_of_lt h]

/-! ## Basic lemmas: document field operations -/

theorem getField_setField_self (d : Doc) (key : String) (v : Value) :
    getField (setField d key v) key = some v := by
  induction d with
  | nil => simp [setField, getField]
  | cons p rest ih =>
    by_cases h : p.1 = key
    · simp [setField, getField, h]
    · simp [setField, getField, h, ih]

theorem getField_setField_other (d : Doc) (key key' : String) (v : Value)
    (h : key' ≠ key) :
    getField (setField d key v) key' = getField d key' := by
  have h' : key ≠ key' := Ne.symm h
  induction d with
  | nil => simp [setField, getField, h']
  | cons p rest ih =>
    by_cases hk : p.1 = key
    · simp [setField, getField, hk, h']
    · simp [setField, getField, hk, ih]

theorem getField_eraseField_self (d : Doc) (key : String) :
    getField (eraseField d key) key = none := by
  induction d with
  | nil => rfl
  | cons p rest ih =>
    by_cases h : p.1 = key
    · simp [eraseField, h, ih]
    · simp [eraseField, getField, h, ih]

theorem getField_eraseField_other (d : Doc) (key key' : String) (h : key' ≠ key) :
    getField (eraseField d key) key' = getField d key' := by
  induction d with
  | nil => rfl
  | cons p rest ih =>
    by_cases hk : p.1 = key
    · simp [eraseField, getField, hk, ih, Ne.symm h]
    · simp [eraseField, getField, hk, ih]

theorem eraseField_of_absent (d : Doc) (key : String)
    (h : getField d key = none) : eraseField d key = d := by
  induction d with
  | nil => rfl
  | cons p rest ih =>
    by_cases hk : p.1 = key
    · simp [getField, hk] at h
    · simp [getField, hk] at h
      simp [eraseField, hk, ih h]

theorem setField_of_absent (d : Doc) (key : String) (v : Value)
    (h : getField d key = none) : setField d key v = d ++ [(key, v)] := by
  induction d with
  | nil => rfl
  | cons p rest ih =>
    by_cases hk : p.1 = key
    · simp [getField, hk] at h
    · simp [getField, hk] at h
      simp [setField, hk, ih h]

theorem getField_append (l1 l2 : Doc) (key : String) :
    getField (l1 ++ l2) key =
      match getField l1 key with
      | some v => some v
      | none => getField l2 key := by
  induction l1 with
  | nil => rfl
  | cons p rest ih =>
    by_cases h : p.1 = key
    · simp [getField, h]
    · simp [getField, h, ih]

/-! ## Basic lemmas: collections and the store -/

theorem collFind_putColl_self (cols : List (String × List Doc)) (c : String)
    (docs : List Doc) : collFind (putColl cols c docs) c = docs := by
  induction cols with
  | nil => simp [putColl, collFind]
  | cons p rest ih =>
    obtain ⟨c', ds⟩ := p
    by_cases h : c' = c
    · simp [putColl, collFind, h]
    · simp [putColl, collFind, h, ih]

theorem find?_append_right {α : Type} (p : α → Bool) (l1 l2 : List α)
    (h : ∀ x ∈ l1, p x = false) : (l1 ++ l2).find? p = l2.find? p := by
  induction l1 with
  | nil => rfl
  | cons a rest ih =>
    have ha : p a = false := h a (by simp)
    simp only [List.cons_append, List.find?, ha]
    exact ih fun x hx => h x (by simp [hx])

/-- Every stored `_id` key is below the store's fresh-key counter
(true of every state the modelled store produces; the Mongo driver
guarantees fresh `_id`s likewise). -/
def keysBound (st : State) : Prop :=
  ∀ (c : String) (d : Doc), d ∈ collFind st.collections c →
    ∀ k : Nat, getField d "_id" = some (.vOid k) → k < st.counter

/-- The state after a successful `create_document st coll d`. -/
def createdState (st : State) (coll : String) (d : Doc) : State :=
  { counter := st.counter + 1
    collections := putColl st.collections coll
      (getColl st coll ++ [("_id", Value.vOid st.counter) :: d])
    exn := none }

theorem create_document_ok (st : State) (coll : String) (d : Doc)
    (h : st.exn = none) :
    create_document st coll d = .ok (oidString st.counter, createdState st coll d) := by
  simp [create_document, h, createdState]

theorem serialize_doc_cons_oid (d : Doc) (k : Nat)
    (hnoid : getField d "_id" = none) (hnid : getField d "id" = none) :
    serialize_doc (("_id", Value.vOid k) :: d) =
      d ++ [("id", Value.vStr (oidString k))] := by
  have h1 : getField (("_id", Value.vOid k) :: d) "_id" = some (.vOid k) := by
    simp [getField]
  rw [serialize_doc, h1]
  have h2 : eraseField (("_id", Value.vOid k) :: d) "_id" = d := by
    simp [eraseField, eraseField_of_absent d _ hnoid]
  show setField (eraseField (("_id", Value.vOid k) :: d) "_id") "id"
      (Value.vStr (valueToString (Value.vOid k))) =
    d ++ [("id", Value.vStr (oidString k))]
  rw [h2, setField_of_absent d _ _ hnid]
  rfl

theorem find_one_createdState (st : State) (coll : String) (d : Doc)
    (hkeys : keysBound st) :
    find_one (createdState st coll d) coll st.counter =
      .ok (some (("_id", Value.vOid st.counter) :: d)) := by
  rw [find_one]
  simp only [createdState]
  rw [getColl, collFind_putColl_self]
  rw [find?_append_right]
  · simp [List.find?, getField]
  · intro x hx
    cases hid : getField x "_id" with
    | none => simp [hid]
    | some v =>
      cases v with
      | vOid k =>
        have := hkeys coll x hx k hid
        simp [hid, Nat.ne_of_lt this]
      | vNull => simp [hid]
      | vBool b => simp [hid]
      | vNum q => simp [hid]
      | vStr s => simp [hid]
      | vArr l => simp [hid]
      | vDoc l => simp [hid]

/-! ## Inversion lemmas for validation -/

theorem validateCrackerProduct_fields {p : CrackerPayload} {m : CrackerProduct}
    (h : validateCrackerProduct p = .ok m) :
    p.name = some m.name ∧ p.price = some m.price ∧
    p.category = some m.category ∧ 0 ≤ m.price ∧
    (∀ x, p.description = some x → m.description = x) ∧
    (∀ x, p.image = some x → m.image = x) ∧
    (∀ x, p.in_stock = some x → m.in_stock = x) ∧
    (∀ x, p.rating = some x → m.rating = x) := by
  cases hn : p.name with
  | none => simp [validateCrackerProduct, hn] at h
  | some nm =>
  cases hp : p.price with
  | none => simp [validateCrackerProduct, hn, hp] at h
  | some pr =>
  by_cases hneg : pr < 0
  · simp [validateCrackerProduct, hn, hp, hneg] at h
  cases hc : p.category with
  | none => simp [validateCrackerProduct, hn, hp, hneg, hc] at h
  | some cat =>
  cases hr : p.rating with
  | none =>
    simp only [validateCrackerProduct, hn, hp, if_neg hneg, hc, hr] at h
    injection h with h
    subst h
    refine ⟨rfl, rfl, rfl, le_of_not_lt hneg, ?_, ?_, ?_, ?_⟩ <;> intro x hx
    · simp [hx]
    · simp [hx]
    · simp [hx]
    · simp at hx
  | some ratOpt =>
    cases ratOpt with
    | none =>
      simp only [validateCrackerProduct, hn, hp, if_neg hneg, hc, hr] at h
      injection h with h
      subst h
      refine ⟨rfl, rfl, rfl, le_of_not_lt hneg, ?_, ?_, ?_, ?_⟩ <;> intro x hx
      · simp [hx]
      · simp [hx]
      · simp [hx]
      · exact Option.some.inj hx
    | some r =>
      by_cases hb : r < 0 ∨ 5 < r
      · simp [validateCrackerProduct, hn, hp, if_neg hneg, hc, hr, hb] at h
      · simp only [validateCrackerProduct, hn, hp, if_neg hneg, hc, hr,
          if_neg hb] at h
        injection h with h
        subst h
        refine ⟨rfl, rfl, rfl, le_of_not_lt hneg, ?_, ?_, ?_, ?_⟩ <;> intro x hx
        · simp [hx]
        · simp [hx]
        · simp [hx]
        · exact Option.some.inj hx

theorem validateCustomerInfo_fields {p : CustomerPayload} {c : CustomerInfo}
    (h : validateCustomerInfo p = .ok c) :
    p.name = some c.name ∧ p.email = some c.email ∧
    isValidEmail c.email = true ∧ p.address = some c.address ∧
    p.city = some c.city ∧ p.pincode = some c.pincode ∧
    c.phone = p.phone.getD none := by
  cases hn : p.name with
  | none => simp [validateCustomerInfo, hn] at h
  | some nm =>
  cases he : p.email with
  | none => simp [validateCustomerInfo, hn, he] at h
  | some em =>
  by_cases hv : isValidEmail em
  case neg => simp [validateCustomerInfo, hn, he, hv] at h
  cases ha : p.address with
  | none => simp [validateCustomerInfo, hn, he, hv, ha] at h
  | some ad =>
  cases hc : p.city with
  | none => simp [validateCustomerInfo, hn, he, hv, ha, hc] at h
  | some ci =>
  cases hpc : p.pincode with
  | none => simp [validateCustomerInfo, hn, he, hv, ha, hc, hpc] at h
  | some pc =>
  simp only [validateCustomerInfo, hn, he, hv, Bool.not_true, Bool.false_eq_true,
    if_false, ha, hc, hpc] at h
  injection h with h
  subst h
  exact ⟨rfl, rfl, hv, rfl, rfl, rfl, rfl⟩

theorem validateOrder_fields {p : OrderPayload} {m : Order}
    (h : validateOrder p = .ok m) :
    (∃ raw, p.items = some raw ∧ raw.mapM validateOrderItem = .ok m.items) ∧
    (∃ cp, p.customer = some cp ∧ validateCustomerInfo cp = .ok m.customer) ∧
    p.total_amount = some m.total_amount ∧ 0 ≤ m.total_amount ∧
    m.status = p.status.getD "pending" ∧ m.notes = p.notes.getD none := by
  cases hi : p.items with
  | none => simp [validateOrder, hi] at h
  | some raw =>
  cases hm : raw.mapM validateOrderItem with
  | error e =>
    simp only [validateOrder, hi, hm] at h
    simp at h
  | ok items =>
  cases hc : p.customer with
  | none =>
    simp only [validateOrder, hi, hm, hc] at h
    simp at h
  | some cp =>
  cases hcv : validateCustomerInfo cp with
  | error e =>
    simp only [validateOrder, hi, hm, hc, hcv] at h
    simp at h
  | ok customer =>
  cases ht : p.total_amount with
  | none =>
    simp only [validateOrder, hi, hm, hc, hcv, ht] at h
    simp at h
  | some total =>
  by_cases hneg : total < 0
  · simp only [validateOrder, hi, hm, hc, hcv, ht, if_pos hneg] at h
    simp at h
  · simp only [validateOrder, hi, hm, hc, hcv, ht, if_neg hneg] at h
    injection h with h
    subst h
    exact ⟨⟨raw, rfl, hm⟩, ⟨cp, rfl, hcv⟩, rfl, le_of_not_lt hneg, rfl, rfl⟩

/-- The string truncation `str(e)[:50]` keeps at most 50 characters. -/
theorem string_take50_length_le (s : String) : (s.take 50).length ≤ 50 := by
  rw [String.take_eq]
  show (List.take 50 s.data).length ≤ 50
  rw [List.length_take]
  exact min_le_left _ _

/-- A fresh, healthy, empty store state. -/
def freshState : State := { counter := 0, collections := [], exn := none }

/-! ## Claim theorems -/

/-- C7: for every document returned by a read endpoint (a stored
document, hence carrying a non-null object-id `_id`), serialization
renames `_id` to `id` with its value stringified, and every field
other than the native identifier appears in the output unchanged. -/
theorem serialize_doc_frame (d : Doc) (k : Nat)
    (hid : getField d "_id" = some (.vOid k)) :
    getField (serialize_doc d) "id" = some (.vStr (oidString k)) ∧
    getField (serialize_doc d) "_id" = none ∧
    (∀ key, key ≠ "_id" → key ≠ "id" →
      getField (serialize_doc d) key = getField d key) := by
  have hs : serialize_doc d =
      setField (eraseField d "_id") "id" (Value.vStr (oidString k)) := by
    unfold serialize_doc
    rw [hid]
    rfl
  refine ⟨?_, ?_, ?_⟩
  · rw [hs, getField_setField_self]
  · rw [hs, getField_setField_other _ _ _ _ (by decide), getField_eraseField_self]
  · intro key h1 h2
    rw [hs, getField_setField_other _ _ _ _ h2, getField_eraseField_other _ _ _ h1]

/-- A concrete stored document exercising the serialization rule. -/
def docWithId : Doc :=
  [("_id", Value.vOid 3), ("name", Value.vStr "Sparklers Pack (10)"),
   ("price", Value.vNum ((299 : Rat) / 100))]

/-- C7 witness: the serialization rule at a concrete document. -/
theorem serialize_doc_frame_witness :
    getField docWithId "_id" = some (.vOid 3) ∧
    (getField (serialize_doc docWithId) "id" = some (.vStr (oidString 3)) ∧
     getField (serialize_doc docWithId) "_id" = none ∧
     (∀ key, key ≠ "_id" → key ≠ "id" →
       getField (serialize_doc docWithId) key = getField docWithId key)) :=
  ⟨rfl, serialize_doc_frame docWithId 3 rfl⟩

/-- C9: `GET /test` is total (it always returns a diagnostic response
rather than propagating a store error), reports at most 10 collection
names, and renders a store exception as a status string embedding the
exception text truncated to at most 50 characters. -/
theorem test_database_diagnostic (db : Option DBHandle) (urlSet nameSet : Bool) :
    (test_database db urlSet nameSet).collections.length ≤ 10 ∧
    (∀ h e, db = some h → h.listCollectionNames = .error e →
      (test_database db urlSet nameSet).database =
        "⚠️  Connected but Error: " ++ e.take 50 ∧
      (e.take 50).length ≤ 50) := by
  constructor
  · cases db with
    | none => simp [test_database]
    | some h =>
      cases hl : h.listCollectionNames with
      | ok cols =>
        simp only [test_database, hl]
        show (List.take 10 cols).length ≤ 10
        rw [List.length_take]
        exact min_le_left _ _
      | error e => simp [test_database, hl]
  · intro h e hdb hl
    subst hdb
    exact ⟨by simp [test_database, hl], string_take50_length_le e⟩

/-- A diagnostic handle whose collection listing raises. -/
def failingHandle : DBHandle :=
  { nameAttr := some "crackersdb"
    listCollectionNames := .error "connection reset by peer" }

/-- C9 witness: the diagnostic properties at a concrete failing handle. -/
theorem test_database_diagnostic_witness :
    (test_database (some failingHandle) true true).collections.length ≤ 10 ∧
    ((some failingHandle : Option DBHandle) = some failingHandle ∧
     failingHandle.listCollectionNames = .error "connection reset by peer" ∧
     (test_database (some failingHandle) true true).database =
       "⚠️  Connected but Error: " ++ ("connection reset by peer").take 50) :=
  ⟨(test_database_diagnostic (some failingHandle) true true).1,
   rfl, rfl,
   ((test_database_diagnostic (some failingHandle) true true).2
     failingHandle "connection reset by peer" rfl rfl).1⟩

/-- C10: when the store handle is absent (`db is None`) or the store
lookup raises, `GET /api/crackers/{id}` answers 400 "Invalid product
id" even for a well-formed identifier — store unavailability is not
distinguished from a malformed identifier here. -/
theorem get_cracker_store_failure_is_400 :
    (∀ s : String, get_cracker none s = .error 400 "Invalid product id") ∧
    (∀ (st : State) (s : String) (k : Nat) (e : String),
      oidParse s = some k → st.exn = some e →
      get_cracker (some st) s = .error 400 "Invalid product id") := by
  constructor
  · intro s; rfl
  · intro st s k e hk he
    rw [get_cracker, hk]
    show (match find_one st "crackerproduct" k with
          | .error _ => HttpResponse.error 400 "Invalid product id"
          | .ok none => HttpResponse.error 404 "Product not found"
          | .ok (some doc) => HttpResponse.ok (.vDoc (serialize_doc doc))) =
      HttpResponse.error 400 "Invalid product id"
    rw [find_one, he]

/-- A healthy-looking state whose next store operation raises. -/
def brokenState : State := { counter := 7, collections := [], exn := some "boom" }

/-- C10 witness: 400 on a missing handle and on a raising store with a
well-formed identifier. -/
theorem get_cracker_store_failure_is_400_witness :
    get_cracker none "anything" = .error 400 "Invalid product id" ∧
    oidParse "00000000000000000000000a" = some 10 ∧
    get_cracker (some brokenState) "00000000000000000000000a" =
      .error 400 "Invalid product id" :=
  ⟨get_cracker_store_failure_is_400.1 "anything", rfl,
   get_cracker_store_failure_is_400.2 brokenState "00000000000000000000000a"
     10 "boom" rfl rfl⟩

/-- C3: a string that `ObjectId` cannot parse yields the 400-class
"Invalid product id" error; a parseable identifier matching no stored
document yields the 404-class "Product not found" error; the two
error responses are distinct. -/
theorem get_cracker_error_kinds :
    (∀ (db : Option State) (s : String), oidParse s = none →
      get_cracker db s = .error 400 "Invalid product id") ∧
    (∀ (st : State) (s : String) (k : Nat), oidParse s = some k →
      st.exn = none →
      (∀ d ∈ getColl st "crackerproduct",
        ∀ key, getField d "_id" = some (.vOid key) → key ≠ k) →
      get_cracker (some st) s = .error 404 "Product not found") ∧
    HttpResponse.error 400 "Invalid product id" ≠
      HttpResponse.error 404 "Product not found" := by
  refine ⟨?_, ?_, by simp⟩
  · intro db s hs
    cases db with
    | none => rfl
    | some st => rw [get_cracker, hs]
  · intro st s k hs hexn habs
    rw [get_cracker, hs]
    show (match find_one st "crackerproduct" k with
          | .error _ => HttpResponse.error 400 "Invalid product id"
          | .ok none => HttpResponse.error 404 "Product not found"
          | .ok (some doc) => HttpResponse.ok (.vDoc (serialize_doc doc))) =
      HttpResponse.error 404 "Product not found"
    rw [find_one, hexn]
    have hnone : (getColl st "crackerproduct").find? (fun d =>
        match getField d "_id" with
        | some (.vOid k') => k' = k
        | _ => false) = none := by
      rw [List.find?_eq_none]
      intro d hd
      cases hid : getField d "_id" with
      | none => simp [hid]
      | some v =>
        cases v with
        | vOid key => simp [hid, habs d hd key hid]
        | vNull => simp [hid]
        | vBool b => simp [hid]
        | vNum q => simp [hid]
        | vStr s => simp [hid]
        | vArr l => simp [hid]
        | vDoc l => simp [hid]
    rw [hnone]

/-- C3 witness: both error kinds at concrete identifiers against the
fresh store. -/
theorem get_cracker_error_kinds_witness :
    oidParse "zzz" = none ∧
    get_cracker (some freshState) "zzz" = .error 400 "Invalid product id" ∧
    oidParse "00000000000000000000002a" = some 42 ∧
    get_cracker (some freshState) "00000000000000000000002a" =
      .error 404 "Product not found" :=
  ⟨rfl,
   get_cracker_error_kinds.1 (some freshState) "zzz" rfl,
   rfl,
   get_cracker_error_kinds.2.1 freshState "00000000000000000000002a" 42 rfl rfl
     (by intro d hd; simp [freshState, getColl, collFind] at hd)⟩

/-- C2: a product body with a negative price, or with a rating given
outside `[0, 5]`, is rejected with a validation error (FastAPI's 422,
raised before the handler) and the store state is unchanged — no
document is persisted. -/
theorem create_cracker_rejects_invalid (db : Option State) (p : CrackerPayload)
    (h : (∃ q, p.price = some q ∧ q < 0) ∨
         (∃ r, p.rating = some (some r) ∧ (r < 0 ∨ 5 < r))) :
    ∃ e, create_cracker db p = .ok (.error 422 e, db) := by
  obtain ⟨e, he⟩ : ∃ e, validateCrackerProduct p = .error e := by
    cases hn : p.name with
    | none => exact ⟨"name: Field required", by simp [validateCrackerProduct, hn]⟩
    | some nm =>
      rcases h with ⟨q, hq, hlt⟩ | ⟨r, hr, hb⟩
      · refine ⟨"price: Input should be greater than or equal to 0", ?_⟩
        simp only [validateCrackerProduct, hn, hq, if_pos hlt]
      · cases hp : p.price with
        | none =>
          exact ⟨"price: Field required", by simp [validateCrackerProduct, hn, hp]⟩
        | some q =>
          by_cases hq0 : q < 0
          · refine ⟨"price: Input should be greater than or equal to 0", ?_⟩
            simp only [validateCrackerProduct, hn, hp, if_pos hq0]
          · cases hc : p.category with
            | none =>
              refine ⟨"category: Field required", ?_⟩
              simp only [validateCrackerProduct, hn, hp, if_neg hq0, hc]
            | some cat =>
              refine ⟨"rating: Input should be within the range 0 to 5", ?_⟩
              simp only [validateCrackerProduct, hn, hp, if_neg hq0, hc, hr,
                if_pos hb]
  exact ⟨e, by simp [create_cracker, he]⟩

/-- A product body with a negative price. -/
def negativePricePayload : CrackerPayload :=
  { name := some "Atom Bomb", description := none, price := some (-1),
    category := some "Bombs", image := none, in_stock := none, rating := none }

/-- C2 witness: rejection at a concrete negative-price body against
the fresh store. -/
theorem create_cracker_rejects_invalid_witness :
    ((∃ q, negativePricePayload.price = some q ∧ q < 0) ∨
     (∃ r, negativePricePayload.rating = some (some r) ∧ (r < 0 ∨ 5 < r))) ∧
    ∃ e, create_cracker (some freshState) negativePricePayload =
      .ok (.error 422 e, some freshState) :=
  ⟨Or.inl ⟨-1, rfl, by norm_num⟩,
   create_cracker_rejects_invalid (some freshState) negativePricePayload
     (Or.inl ⟨-1, rfl, by norm_num⟩)⟩

/-- C1: a valid product body accepted by `POST /api/crackers` is
persisted under a fresh identifier; `GET /api/crackers/{id}` with the
returned identifier yields the stored document — the validated model
dump with the native key serialized as the string field `id` — and
the model agrees with the submitted body on every provided field. -/
theorem create_then_get_roundtrip (st : State) (p : CrackerPayload)
    (m : CrackerProduct) (hexn : st.exn = none) (hkeys : keysBound st)
    (hcnt : st.counter < 16 ^ 24)
    (hval : validateCrackerProduct p = .ok m) :
    create_cracker (some st) p =
      .ok (.ok (.vDoc [("id", .vStr (oidString st.counter))]),
           some (createdState st "crackerproduct" m.dump)) ∧
    get_cracker (some (createdState st "crackerproduct" m.dump))
        (oidString st.counter) =
      .ok (.vDoc (m.dump ++ [("id", .vStr (oidString st.counter))])) ∧
    p.name = some m.name ∧ p.price = some m.price ∧
    p.category = some m.category ∧
    (∀ x, p.description = some x → m.description = x) ∧
    (∀ x, p.image = some x → m.image = x) ∧
    (∀ x, p.in_stock = some x → m.in_stock = x) ∧
    (∀ x, p.rating = some x → m.rating = x) := by
  obtain ⟨h1, h2, h3, _, h5, h6, h7, h8⟩ := validateCrackerProduct_fields hval
  have hdump_noid : getField m.dump "_id" = none := rfl
  have hdump_nid : getField m.dump "id" = none := rfl
  refine ⟨?_, ?_, h1, h2, h3, h5, h6, h7, h8⟩
  · simp [create_cracker, hval, create_document_ok st _ _ hexn, Except.map]
  · rw [get_cracker, oidParse_oidString hcnt]
    show (match find_one (createdState st "crackerproduct" m.dump)
            "crackerproduct" st.counter with
          | .error _ => HttpResponse.error 400 "Invalid product id"
          | .ok none => HttpResponse.error 404 "Product not found"
          | .ok (some doc) => HttpResponse.ok (.vDoc (serialize_doc doc))) =
      .ok (.vDoc (m.dump ++ [("id", .vStr (oidString st.counter))]))
    rw [find_one_createdState st _ _ hkeys]
    show HttpResponse.ok
        (.vDoc (serialize_doc (("_id", Value.vOid st.counter) :: m.dump))) = _
    rw [serialize_doc_cons_oid _ _ hdump_noid hdump_nid]

/-- A fully valid product body. -/
def validPayload : CrackerPayload :=
  { name := some "Atom Bomb", description := some (some "Loud"),
    price := some 10, category := some "Bombs", image := none,
    in_stock := some false, rating := some (some 4) }

/-- The model that validation assigns to `validPayload`. -/
def validProduct : CrackerProduct :=
  { name := "Atom Bomb", description := some "Loud", price := 10,
    category := "Bombs", image := none, in_stock := false, rating := some 4 }

/-- C1 witness: the round trip at a concrete valid body against the
fresh store. -/
theorem create_then_get_roundtrip_witness :
    freshState.exn = none ∧ freshState.counter < 16 ^ 24 ∧
    validateCrackerProduct validPayload = .ok validProduct ∧
    (create_cracker (some freshState) validPayload =
       .ok (.ok (.vDoc [("id", .vStr (oidString freshState.counter))]),
            some (createdState freshState "crackerproduct" validProduct.dump)) ∧
     get_cracker (some (createdState freshState "crackerproduct"
         validProduct.dump)) (oidString freshState.counter) =
       .ok (.vDoc (validProduct.dump ++
         [("id", .vStr (oidString freshState.counter))])) ∧
     validPayload.name = some validProduct.name ∧
     validPayload.price = some validProduct.price ∧
     validPayload.category = some validProduct.category ∧
     (∀ x, validPayload.description = some x → validProduct.description = x) ∧
     (∀ x, validPayload.image = some x → validProduct.image = x) ∧
     (∀ x, validPayload.in_stock = some x → validProduct.in_stock = x) ∧
     (∀ x, validPayload.rating = some x → validProduct.rating = x)) :=
  ⟨rfl, by norm_num [freshState], rfl,
   create_then_get_roundtrip freshState validPayload validProduct rfl
     (by intro c d hd k hk; simp [freshState, collFind] at hd)
     (by norm_num [freshState]) rfl⟩

theorem getColl_createdState (s : State) (c : String) (d : Doc) :
    getColl (createdState s c d) c =
      getColl s c ++ [("_id", Value.vOid s.counter) :: d] := by
  simp [getColl, createdState, collFind_putColl_self]

theorem createdState_counter (s : State) (c : String) (d : Doc) :
    (createdState s c d).counter = s.counter + 1 := rfl

theorem insertAll_cons (s : State) (d : Doc) (rest : List Doc)
    (hs : s.exn = none) :
    insertAll s (d :: rest) =
      insertAll (createdState s "crackerproduct" d) rest := by
  rw [insertAll, create_document_ok s _ _ hs]

theorem count_documents_healthy (st : State) (coll : String)
    (hexn : st.exn = none) :
    count_documents st coll = .ok (getColl st coll).length := by
  rw [count_documents, hexn]

theorem get_documents_healthy (st : State) (coll : String)
    (flt : List (String × Value)) (hexn : st.exn = none) :
    get_documents st coll flt none =
      .ok ((getColl st coll).filter (matchesFilter flt)) := by
  rw [get_documents, hexn]

theorem filter_matchesFilter_nil (l : List Doc) :
    l.filter (matchesFilter []) = l := by
  induction l with
  | nil => rfl
  | cons d rest ih => simp [List.filter, matchesFilter, ih]

/-- The store state after seeding the four samples into `st`. -/
def seededFrom (st : State) : State :=
  createdState (createdState (createdState (createdState st
    "crackerproduct" sample1) "crackerproduct" sample2)
    "crackerproduct" sample3) "crackerproduct" sample4

/-- The documents stored by seeding, keyed from `c` upward. -/
def seededDocs (c : Nat) : List Doc :=
  [("_id", Value.vOid c) :: sample1,
   ("_id", Value.vOid (c + 1)) :: sample2,
   ("_id", Value.vOid (c + 1 + 1)) :: sample3,
   ("_id", Value.vOid (c + 1 + 1 + 1)) :: sample4]

/-- The response items of a catalog listing right after seeding. -/
def seededItems (c : Nat) : List Doc :=
  [sample1 ++ [("id", Value.vStr (oidString c))],
   sample2 ++ [("id", Value.vStr (oidString (c + 1)))],
   sample3 ++ [("id", Value.vStr (oidString (c + 1 + 1)))],
   sample4 ++ [("id", Value.vStr (oidString (c + 1 + 1 + 1)))]]

/-- C4: seeding happens exactly when the product collection is empty.
On an empty store the first `GET /api/crackers` inserts and returns
exactly 4 sample products, and an immediately following call returns
the same 4 items against the same store state — no duplicates are
inserted.  On a non-empty store, seeding is a no-op. -/
theorem seeding_iff_empty (st : State) (hexn : st.exn = none) :
    (getColl st "crackerproduct" = [] →
      ∃ st1 items,
        list_crackers (some st) none = .ok (items, some st1) ∧
        items.length = 4 ∧
        (getColl st1 "crackerproduct").length = 4 ∧
        list_crackers (some st1) none = .ok (items, some st1)) ∧
    (getColl st "crackerproduct" ≠ [] →
      seed_crackers_if_empty (some st) = .ok (some st)) := by
  constructor
  · intro hempty
    have hcount : count_documents st "crackerproduct" = .ok 0 := by
      rw [count_documents_healthy st _ hexn, hempty]
      rfl
    have hseed : seed_crackers_if_empty (some st) = .ok (some (seededFrom st)) := by
      rw [seed_crackers_if_empty, hcount]
      show (match insertAll st samples with
            | Except.error e => Except.error e
            | Except.ok st1 => Except.ok (some st1)) =
        Except.ok (some (seededFrom st))
      rw [samples, insertAll_cons _ _ _ hexn, insertAll_cons _ _ _ rfl,
        insertAll_cons _ _ _ rfl, insertAll_cons _ _ _ rfl, insertAll]
      rfl
    have hcolls : getColl (seededFrom st) "crackerproduct" =
        seededDocs st.counter := by
      simp only [seededFrom, getColl_createdState, createdState_counter, hempty,
        List.nil_append]
      rfl
    have hdocs : get_documents (seededFrom st) "crackerproduct" [] none =
        .ok (seededDocs st.counter) := by
      rw [get_documents_healthy _ _ _ rfl, hcolls, filter_matchesFilter_nil]
    have hmap : (seededDocs st.counter).map serialize_doc =
        seededItems st.counter := by
      simp only [seededDocs, seededItems, List.map_cons, List.map_nil,
        serialize_doc_cons_oid sample1 st.counter rfl rfl,
        serialize_doc_cons_oid sample2 (st.counter + 1) rfl rfl,
        serialize_doc_cons_oid sample3 (st.counter + 1 + 1) rfl rfl,
        serialize_doc_cons_oid sample4 (st.counter + 1 + 1 + 1) rfl rfl]
    have hfirst : list_crackers (some st) none =
        .ok (seededItems st.counter, some (seededFrom st)) := by
      rw [list_crackers, hseed]
      show (match get_documents (seededFrom st) "crackerproduct" [] none with
            | Except.error e => Except.error e
            | Except.ok items =>
              Except.ok (items.map serialize_doc, some (seededFrom st))) = _
      rw [hdocs]
      show Except.ok ((seededDocs st.counter).map serialize_doc,
        some (seededFrom st)) = _
      rw [hmap]
    have hcount4 : count_documents (seededFrom st) "crackerproduct" = .ok 4 := by
      rw [count_documents_healthy _ _ rfl, hcolls]
      rfl
    have hseed2 : seed_crackers_if_empty (some (seededFrom st)) =
        .ok (some (seededFrom st)) := by
      rw [seed_crackers_if_empty, hcount4]
      rfl
    have hsecond : list_crackers (some (seededFrom st)) none =
        .ok (seededItems st.counter, some (seededFrom st)) := by
      rw [list_crackers, hseed2]
      show (match get_documents (seededFrom st) "crackerproduct" [] none with
            | Except.error e => Except.error e
            | Except.ok items =>
              Except.ok (items.map serialize_doc, some (seededFrom st))) = _
      rw [hdocs]
      show Except.ok ((seededDocs st.counter).map serialize_doc,
        some (seededFrom st)) = _
      rw [hmap]
    exact ⟨seededFrom st, seededItems st.counter, hfirst, rfl,
      by rw [hcolls]; rfl, hsecond⟩
  · intro hne
    have hlen : (getColl st "crackerproduct").length ≠ 0 := by
      simpa [List.length_eq_zero] using hne
    rw [seed_crackers_if_empty, count_documents_healthy st _ hexn]
    show (if (getColl st "crackerproduct").length = 0 then
            match insertAll st samples with
            | Except.error e => Except.error e
            | Except.ok st1 => Except.ok (some st1)
          else Except.ok (some st)) = Except.ok (some st)
    rw [if_neg hlen]

/-- C4 witness: seeding at the concrete fresh store, plus the no-op
direction at the store the first call produced. -/
theorem seeding_iff_empty_witness :
    freshState.exn = none ∧ getColl freshState "crackerproduct" = [] ∧
    (∃ st1 items,
      list_crackers (some freshState) none = .ok (items, some st1) ∧
      items.length = 4 ∧
      (getColl st1 "crackerproduct").length = 4 ∧
      list_crackers (some st1) none = .ok (items, some st1)) :=
  ⟨rfl, rfl, (seeding_iff_empty freshState rfl).1 rfl⟩

theorem seed_of_empty (st : State) (hexn : st.exn = none)
    (hempty : getColl st "crackerproduct" = []) :
    seed_crackers_if_empty (some st) = .ok (some (seededFrom st)) := by
  have hcount : count_documents st "crackerproduct" = .ok 0 := by
    rw [count_documents_healthy st _ hexn, hempty]
    rfl
  rw [seed_crackers_if_empty, hcount]
  show (match insertAll st samples with
        | Except.error e => Except.error e
        | Except.ok st1 => Except.ok (some st1)) =
    Except.ok (some (seededFrom st))
  rw [samples, insertAll_cons _ _ _ hexn, insertAll_cons _ _ _ rfl,
    insertAll_cons _ _ _ rfl, insertAll_cons _ _ _ rfl, insertAll]
  rfl

theorem seed_of_nonempty (st : State) (hexn : st.exn = none)
    (hne : getColl st "crackerproduct" ≠ []) :
    seed_crackers_if_empty (some st) = .ok (some st) := by
  have hlen : (getColl st "crackerproduct").length ≠ 0 := by
    simpa [List.length_eq_zero] using hne
  rw [seed_crackers_if_empty, count_documents_healthy st _ hexn]
  show (if (getColl st "crackerproduct").length = 0 then
          match insertAll st samples with
          | Except.error e => Except.error e
          | Except.ok st1 => Except.ok (some st1)
        else Except.ok (some st)) = Except.ok (some st)
  rw [if_neg hlen]

/-- Seeding a healthy store always succeeds and leaves a healthy store. -/
theorem seed_healthy (st : State) (hexn : st.exn = none) :
    ∃ st', seed_crackers_if_empty (some st) = .ok (some st') ∧ st'.exn = none := by
  by_cases hz : getColl st "crackerproduct" = []
  · exact ⟨seededFrom st, seed_of_empty st hexn hz, rfl⟩
  · exact ⟨st, seed_of_nonempty st hexn hz, hexn⟩

theorem beq_vStr_iff (w : Value) (s : String) :
    Value.beq w (.vStr s) = true ↔ w = .vStr s := by
  cases w <;> simp [Value.beq]

theorem matchesFilter_category (d : Doc) (s : String) :
    matchesFilter [("category", Value.vStr s)] d = true ↔
      getField d "category" = some (.vStr s) := by
  simp only [matchesFilter, List.all_cons, List.all_nil, Bool.and_true]
  cases hw : getField d "category" with
  | none => simp
  | some w => simp [beq_vStr_iff]

/-- C5: `GET /api/crackers?category=Sparklers` returns exactly the
serialized documents whose `category` field equals `"Sparklers"` by
exact string comparison (after the lazy seeding step), and no
others. -/
theorem list_crackers_category_filter (st : State) (hexn : st.exn = none) :
    ∃ st', seed_crackers_if_empty (some st) = .ok (some st') ∧
      list_crackers (some st) (some "Sparklers") =
        .ok (((getColl st' "crackerproduct").filter
            (matchesFilter [("category", Value.vStr "Sparklers")])).map
          serialize_doc, some st') ∧
      (∀ d : Doc, matchesFilter [("category", Value.vStr "Sparklers")] d = true ↔
        getField d "category" = some (.vStr "Sparklers")) := by
  obtain ⟨st', hseed, hexn'⟩ := seed_healthy st hexn
  refine ⟨st', hseed, ?_, fun d => matchesFilter_category d "Sparklers"⟩
  rw [list_crackers, hseed]
  show (match get_documents st' "crackerproduct"
          [("category", Value.vStr "Sparklers")] none with
        | Except.error e => Except.error e
        | Except.ok items => Except.ok (items.map serialize_doc, some st')) = _
  rw [get_documents_healthy _ _ _ hexn']

/-- C5 witness: the filtered listing at the concrete fresh store. -/
theorem list_crackers_category_filter_witness :
    freshState.exn = none ∧
    ∃ st', seed_crackers_if_empty (some freshState) = .ok (some st') ∧
      list_crackers (some freshState) (some "Sparklers") =
        .ok (((getColl st' "crackerproduct").filter
            (matchesFilter [("category", Value.vStr "Sparklers")])).map
          serialize_doc, some st') ∧
      (∀ d : Doc, matchesFilter [("category", Value.vStr "Sparklers")] d = true ↔
        getField d "category" = some (.vStr "Sparklers")) :=
  ⟨rfl, list_crackers_category_filter freshState rfl⟩

theorem get_documents_limit_healthy (st : State) (coll : String)
    (flt : List (String × Value)) (l : Nat) (hexn : st.exn = none) :
    get_documents st coll flt (some l) =
      .ok (((getColl st coll).filter (matchesFilter flt)).take l) := by
  rw [get_documents, hexn]

/-- C6: a valid order body omitting `status` is answered by
`POST /api/orders` with a non-empty string `order_id` (a 24-character
identifier) and status `"received"`, while the persisted order — as
later returned by `GET /api/orders` — carries the schema default
status `"pending"`. -/
theorem order_received_vs_pending (st : State) (p : OrderPayload) (m : Order)
    (hexn : st.exn = none) (hst : p.status = none)
    (hval : validateOrder p = .ok m)
    (hroom : (getColl st "order").length < 50) :
    m.status = "pending" ∧
    (oidString st.counter).length = 24 ∧
    create_order (some st) p =
      .ok (.ok (.vDoc [("order_id", .vStr (oidString st.counter)),
                       ("status", .vStr "received")]),
           some (createdState st "order" m.dump)) ∧
    ∃ docs, list_orders (some (createdState st "order" m.dump)) 50 = .ok docs ∧
      (m.dump ++ [("id", .vStr (oidString st.counter))]) ∈ docs ∧
      getField (m.dump ++ [("id", .vStr (oidString st.counter))]) "status" =
        some (.vStr "pending") := by
  have hpend : m.status = "pending" := by
    have h := (validateOrder_fields hval).2.2.2.2.1
    rw [h, hst]
    rfl
  have hser : serialize_doc (("_id", Value.vOid st.counter) :: m.dump) =
      m.dump ++ [("id", Value.vStr (oidString st.counter))] :=
    serialize_doc_cons_oid m.dump st.counter rfl rfl
  refine ⟨hpend, oidString_length _, ?_, ?_⟩
  · simp [create_order, hval, create_document_ok st _ _ hexn, Except.map]
  · refine ⟨(getColl st "order" ++
      [("_id", Value.vOid st.counter) :: m.dump]).map serialize_doc, ?_, ?_, ?_⟩
    · rw [list_orders]
      show (match get_documents (createdState st "order" m.dump) "order" []
              (some 50) with
            | Except.error e => Except.error e
            | Except.ok docs => Except.ok (docs.map serialize_doc)) = _
      rw [get_documents_limit_healthy _ _ _ _ rfl, getColl_createdState,
        filter_matchesFilter_nil,
        List.take_of_length_le (by simp; omega)]
    · rw [← hser]
      exact List.mem_map_of_mem serialize_doc (by simp)
    · rw [getField_append]
      show (match getField m.dump "status" with
            | some v => some v
            | none => getField [("id", Value.vStr (oidString st.counter))]
                "status") = some (.vStr "pending")
      rw [show getField m.dump "status" = some (.vStr m.status) from rfl, hpend]

/-- A valid order line body. -/
def itemPayload0 : OrderItemPayload :=
  { product_id := some "x", name := some "Sparklers Pack (10)",
    price := some 3, quantity := some 2 }

/-- A valid customer body (with all optional fields given). -/
def customerPayload0 : CustomerPayload :=
  { name := some "A", email := some "a@b.com", phone := none,
    address := some "1 St", city := some "C", pincode := some "00000" }

/-- A valid order body that omits `status`. -/
def orderPayload0 : OrderPayload :=
  { items := some [itemPayload0], customer := some customerPayload0,
    total_amount := some 6, status := none, notes := none }

/-- The model that validation assigns to `orderPayload0`. -/
def order0 : Order :=
  { items := [{ product_id := "x", name := "Sparklers Pack (10)",
                price := 3, quantity := 2 }],
    customer := { name := "A", email := "a@b.com", phone := none,
                  address := "1 St", city := "C", pincode := "00000" },
    total_amount := 6, status := "pending", notes := none }

/-- C6 witness: the order flow at the concrete spec example body
against the fresh store. -/
theorem order_received_vs_pending_witness :
    freshState.exn = none ∧ orderPayload0.status = none ∧
    validateOrder orderPayload0 = .ok order0 ∧
    (getColl freshState "order").length < 50 ∧
    (order0.status = "pending" ∧
     (oidString freshState.counter).length = 24 ∧
     create_order (some freshState) orderPayload0 =
       .ok (.ok (.vDoc [("order_id", .vStr (oidString freshState.counter)),
                        ("status", .vStr "received")]),
            some (createdState freshState "order" order0.dump)) ∧
     ∃ docs, list_orders (some (createdState freshState "order" order0.dump))
         50 = .ok docs ∧
       (order0.dump ++ [("id", .vStr (oidString freshState.counter))]) ∈ docs ∧
       getField (order0.dump ++ [("id", .vStr (oidString freshState.counter))])
         "status" = some (.vStr "pending")) :=
  ⟨rfl, rfl, by decide, by norm_num [freshState, getColl, collFind],
   order_received_vs_pending freshState orderPayload0 order0 rfl rfl (by decide)
     (by norm_num [freshState, getColl, collFind])⟩

/-- A customer body identical to `customerPayload0` except that
`address` is omitted (and a phone is supplied). -/
def customerPayloadNoAddress : CustomerPayload :=
  { name := some "A", email := some "a@b.com", phone := some (some "123"),
    address := none, city := some "C", pincode := some "00000" }

/-- An otherwise valid order body whose customer omits `address`. -/
def orderPayloadNoAddress : OrderPayload :=
  { items := some [itemPayload0], customer := some customerPayloadNoAddress,
    total_amount := some 6, status := none, notes := none }

/-- C8 counterexample: an Order payload whose embedded customer omits
`address` (but is otherwise valid) is rejected by `POST /api/orders`
with a validation error — `address` is not an optional field, so the
claim that payloads omitting it are accepted is false. -/
theorem order_missing_address_rejected :
    create_order (some freshState) orderPayloadNoAddress =
      .ok (.error 422 "address: Field required", some freshState) := by
  have hv : validateOrder orderPayloadNoAddress =
      .error "address: Field required" := by decide
  simp [create_order, hv]

/-- C8 (amended): in an Order's embedded `CustomerInfo` only `phone`
is optional; `name`, `email` (valid email format), `address`, `city`
and `pincode` are required — `POST /api/orders` rejects a payload
whose customer omits any of the required five with a validation
error, while customer validation accepts a body that omits `phone`
and has the required five. -/
theorem customer_optional_phone_only :
    (∀ (db : Option State) (p : OrderPayload) (cp : CustomerPayload),
      p.customer = some cp →
      (cp.name = none ∨ cp.email = none ∨ cp.address = none ∨
       cp.city = none ∨ cp.pincode = none) →
      ∃ e, create_order db p = .ok (.error 422 e, db)) ∧
    (∀ (cp : CustomerPayload) (nm em ad ci pi : String),
      cp.name = some nm → cp.email = some em → cp.phone = none →
      cp.address = some ad → cp.city = some ci → cp.pincode = some pi →
      isValidEmail em = true →
      validateCustomerInfo cp =
        .ok { name := nm, email := em, phone := none, address := ad,
              city := ci, pincode := pi }) := by
  constructor
  · intro db p cp hc hmiss
    cases hv : validateOrder p with
    | error e => exact ⟨e, by simp [create_order, hv]⟩
    | ok m =>
      exfalso
      obtain ⟨-, ⟨cp', hc', hcv⟩, -, -, -, -⟩ := validateOrder_fields hv
      rw [hc] at hc'
      injection hc' with hcc
      subst hcc
      obtain ⟨h1, h2, -, h4, h5, h6, -⟩ := validateCustomerInfo_fields hcv
      rcases hmiss with h | h | h | h | h
      · simp [h] at h1
      · simp [h] at h2
      · simp [h] at h4
      · simp [h] at h5
      · simp [h] at h6
  · intro cp nm em ad ci pi hn he hp ha hc2 hpin hv
    simp only [validateCustomerInfo, hn, he, hv, Bool.not_true,
      Bool.false_eq_true, if_false, ha, hc2, hpin, hp]
    rfl

/-- C8 witness: the amended behaviour at concrete bodies — rejection
without `address`, acceptance of the phone-less customer. -/
theorem customer_optional_phone_only_witness :
    (orderPayloadNoAddress.customer = some customerPayloadNoAddress ∧
     customerPayloadNoAddress.address = none ∧
     ∃ e, create_order (some freshState) orderPayloadNoAddress =
       .ok (.error 422 e, some freshState)) ∧
    (customerPayload0.phone = none ∧ isValidEmail "a@b.com" = true ∧
     validateCustomerInfo customerPayload0 =
       .ok { name := "A", email := "a@b.com", phone := none,
             address := "1 St", city := "C", pincode := "00000" }) :=
  ⟨⟨rfl, rfl,
    customer_optional_phone_only.1 (some freshState) orderPayloadNoAddress
      customerPayloadNoAddress rfl (Or.inr (Or.inr (Or.inl rfl)))⟩,
   ⟨rfl, by decide,
    customer_optional_phone_only.2 customerPayload0 "A" "a@b.com" "1 St" "C"
      "00000" rfl rfl rfl rfl rfl rfl (by decide)⟩⟩

end CrackersShop
